import Mathlib

/-
Verification of the buildtool incremental build orchestrator (src/buildtool.py)
against its natural-language specification.

The repository's Python code is shallowly embedded: pure helpers become Lean
functions over String/List Char, file-system interaction becomes explicit
association lists or functions from paths to optional data, imperative loops
become structural recursion, and code that can raise an uncaught Python
exception returns Except String. Python mtimes are modelled as naturals: the
code only compares them with >= and >, so only their order matters.

All string manipulation is implemented structurally over List Char so that
every definition evaluates inside the kernel (decide / rfl).
-/

/-! ## String helpers (structural, kernel-computable) -/

/-- True when the list of characters of pre is a prefix of s: models Python
str.startswith. -/
def strStartsWith (s pre : String) : Bool :=
  List.isPrefixOf pre.toList s.toList

/-- Drop the first n characters: models Python slicing s[n:]. -/
def strDrop (s : String) (n : Nat) : String :=
  String.mk (s.toList.drop n)

/-- Split a character list on a separator character, keeping empty pieces:
models Python str.split(sep) for a one-character separator. -/
def splitOnChar (c : Char) : List Char → List (List Char)
  | [] => [[]]
  | a :: rest =>
    let r := splitOnChar c rest
    if a = c then [] :: r
    else
      match r with
      | [] => [[a]]
      | h :: t => (a :: h) :: t

/-- Split a string on a separator character. -/
def splitOnCharStr (c : Char) (s : String) : List String :=
  (splitOnChar c s.toList).map String.mk

/-- Join strings with a separator: models Python sep.join(parts). -/
def joinWith (sep : String) : List String → String
  | [] => ""
  | [x] => x
  | x :: rest => x ++ sep ++ joinWith sep rest

/-- Substring membership: models Python `needle in hay` on strings, including
that the empty string is a substring of everything. -/
def sublistOf (needle : List Char) : List Char → Bool
  | [] => needle.isEmpty
  | a :: t => List.isPrefixOf needle (a :: t) || sublistOf needle t

/-- `strContains hay needle` models the Python expression `needle in hay`. -/
def strContains (hay needle : String) : Bool :=
  sublistOf needle.toList hay.toList

/-- Index of the last occurrence of a character: models Python str.rfind when
the character occurs; none models rfind returning -1. -/
def lastIdxOf (c : Char) : List Char → Option Nat
  | [] => none
  | a :: rest =>
    match lastIdxOf c rest with
    | some i => some (i + 1)
    | none => if a = c then some 0 else none

/-- The last path component of a character list (basename). The embedded Path
class normalises paths on construction, so paths never end in a slash. -/
def basenameChars (l : List Char) : List Char :=
  (splitOnChar '/' l).getLastD []

/-- pathlib.PurePath.suffix: the extension of the final component, taken from
the last dot, provided that dot is neither the first nor the last character of
the component; otherwise the empty string. -/
def pathSuffix (p : String) : String :=
  let name := basenameChars p.toList
  match lastIdxOf '.' name with
  | none => ""
  | some i => if 0 < i ∧ i < name.length - 1 then String.mk (name.drop i) else ""

/-! ## mod2cm (buildtool.py lines 1227-1240) -/

/-- Replace every colon by a dash: models the Python expression
modname.replace(chr(58), chr(45)) on line 1237 of buildtool.py. -/
def replaceColonDash (s : String) : String :=
  String.mk (s.toList.map (fun c => if c = ':' then '-' else c))

/-- One step of os.path.normpath component processing (CPython posixpath),
restricted to relative paths (initial_slashes is always 0 for the inputs the
tool builds: they start with a dot, never a slash). -/
def normpathComps (comps : List String) : List String :=
  comps.foldl
    (fun acc comp =>
      if comp = "" ∨ comp = "." then acc
      else if comp ≠ ".." ∨ acc = [] ∨ acc.getLast? = some ".." then acc ++ [comp]
      else acc.dropLast)
    []

/-- os.path.normpath for relative POSIX paths: split on slashes, drop empty
and dot components, resolve dot-dot, rejoin; an empty result is a single
dot. -/
def normpath (p : String) : String :=
  let comps := normpathComps (splitOnCharStr '/' p)
  if comps = [] then "." else joinWith "/" comps

/-- mod2cm (buildtool.py lines 1227-1240): deterministic interface-file name
for a module name. System names (leading slash) drop the slash; user names
(leading dot-slash) go through Path(modname + ".pcm"), whose constructor
applies os.path.normpath, and relative_to(SRCDIR) with SRCDIR = "." leaves the
normalised relative path unchanged; all other (named-module) names have every
colon replaced by a dash. -/
def mod2cm (modname : String) : String :=
  if strStartsWith modname "/" then strDrop modname 1 ++ ".pcm"
  else if strStartsWith modname "./" then normpath (modname ++ ".pcm")
  else replaceColonDash modname ++ ".pcm"

/-- The interface-file naming rule exactly as the specification words it
(section 4.7): system names drop the leading slash, user names use the
relative path, and named modules keep every colon as-is. -/
def mod2cm_spec (modname : String) : String :=
  if strStartsWith modname "/" then strDrop modname 1 ++ ".pcm"
  else if strStartsWith modname "./" then strDrop modname 2 ++ ".pcm"
  else modname ++ ".pcm"

/-- The specification's naming rule amended only in the named-module case:
colons are replaced by dashes, as the code does. -/
def mod2cm_spec_amended (modname : String) : String :=
  if strStartsWith modname "/" then strDrop modname 1 ++ ".pcm"
  else if strStartsWith modname "./" then strDrop modname 2 ++ ".pcm"
  else replaceColonDash modname ++ ".pcm"

/-! ## File system and Path.mtime (buildtool.py lines 183-196) -/

/-- Tagged dependency edge: ModuleDep (name, sha256) or HeaderDep (path), as
stored in a SourceFile's deps set. The Python set is modelled as a list in
insertion order. -/
inductive Dep
  | moduleDep (name : String) (sha256 : String)
  | headerDep (path : String)
deriving DecidableEq, Repr

/-- Whether a dependency edge is a module edge. -/
def Dep.isModule : Dep → Bool
  | .moduleDep _ _ => true
  | .headerDep _ => false

/-- The parsed shape of an info file: the stored compiler command line and the
raw tagged dep strings, exactly the two keys SourceFile.update writes. -/
structure InfoData where
  command : List String
  deps : List String
deriving DecidableEq, Repr

/-- What json.load sees when the info file is present on disk: either the
document is malformed (json.load raises json.decoder.JSONDecodeError) or it
parses to an InfoData. -/
inductive InfoContent
  | malformedJson
  | parsed (data : InfoData)
deriving DecidableEq, Repr

/-- The file system visible to the tool: stat information (mtime for existing
paths, nothing for missing ones) and the readable content of info files. -/
structure FileSystem where
  mtimes : List (String × Nat)
  contents : List (String × InfoContent)

/-- Path.try_stat (lines 183-187): the stat result, none on FileNotFoundError. -/
def FileSystem.statOf (fs : FileSystem) (p : String) : Option Nat :=
  (fs.mtimes.find? (fun e => decide (e.1 = p))).map (fun e => e.2)

/-- open + json.load of an info file: none models FileNotFoundError. -/
def FileSystem.contentOf (fs : FileSystem) (p : String) : Option InfoContent :=
  (fs.contents.find? (fun e => decide (e.1 = p))).map (fun e => e.2)

/-- Path.mtime (buildtool.py lines 189-193): the stat mtime, or 0 when the
path does not exist. -/
def Path.mtime (fs : FileSystem) (p : String) : Nat :=
  (fs.statOf p).getD 0

/-! ## Freshness oracle: SourceFile.check_up_to_date (lines 449-503) -/

/-- Loop state of the dep loop in check_up_to_date: stale records that
up_to_date has been set to False (it starts unset), need_recompile and deps
mirror the Python attributes. -/
structure LoopState where
  stale : Bool
  need_recompile : Bool
  deps : List Dep
deriving DecidableEq, Repr

/-- The module:NAME@SHA parse on line 486: re.match of module:(.*)@(.*) after
the module: prefix has been recognised. The first group is greedy, so the name
extends to the last at-sign; with no at-sign re.match returns None and the
subsequent m.groups() raises AttributeError. -/
def parseModuleDep (rest : String) : Option (String × String) :=
  match (splitOnCharStr '@' rest).reverse with
  | [] => none
  | [_] => none
  | sha :: revInit => some (joinWith "@" revInit.reverse, sha)

/-- The dep loop of check_up_to_date (lines 477-500), one dep string at a
time. file: deps compare the dep's mtime snapshot against the info mtime
(the SourceFile.get interning performed there is registry bookkeeping only
and cannot change the mtime read; note SourceFile.update never writes file:
deps). module: deps are collected and mark the file stale. include: deps are
collected, mark the file stale, and force a recompile when the header is
newer than the info file. Any other tag raises (uncaught). -/
def processDeps (fs : FileSystem) (infoM : Nat) :
    List String → LoopState → Except String LoopState
  | [], st => .ok st
  | depname :: rest, st =>
    if strStartsWith depname "file:" then
      let dep := strDrop depname 5
      let st' :=
        if Path.mtime fs dep ≥ infoM then
          { st with stale := true, need_recompile := true }
        else st
      processDeps fs infoM rest st'
    else if strStartsWith depname "module:" then
      match parseModuleDep (strDrop depname 7) with
      | none => .error "AttributeError: NoneType object has no attribute groups"
      | some (name, sha) =>
        processDeps fs infoM rest
          { st with stale := true, deps := st.deps ++ [Dep.moduleDep name sha] }
    else if strStartsWith depname "include:" then
      let dep := strDrop depname 8
      processDeps fs infoM rest
        { st with stale := true,
                  need_recompile := st.need_recompile || decide (Path.mtime fs dep ≥ infoM),
                  deps := st.deps ++ [Dep.headerDep dep] }
    else .error ("unrecognized dep type: " ++ depname)

/-- The flags check_up_to_date leaves on the SourceFile when it returns
without raising: up_to_date, need_recompile, the collected deps, and
output_mtime (0 unless the first mtime comparison passed). -/
structure FreshState where
  up_to_date : Bool
  need_recompile : Bool
  deps : List Dep
  output_mtime : Nat
deriving DecidableEq, Repr

/-- SourceFile.check_up_to_date (lines 449-503). srcMtime is self.mtime, the
source mtime snapshot taken at registration. Decision order: source newer or
equal to the info file → rebuild; info file missing (FileNotFoundError is the
only exception caught) → rebuild; malformed JSON → json.decoder.JSONDecodeError
propagates (the build crashes); stored command differs → rebuild; otherwise the
dep loop runs and up_to_date becomes True only if it never set it to False. -/
def check_up_to_date (fs : FileSystem) (srcMtime : Nat) (infofile : String)
    (currentCmd : List String) : Except String FreshState :=
  if srcMtime ≥ Path.mtime fs infofile then
    .ok ⟨false, true, [], 0⟩
  else
    match fs.contentOf infofile with
    | none => .ok ⟨false, true, [], Path.mtime fs infofile⟩
    | some InfoContent.malformedJson => .error "json.decoder.JSONDecodeError"
    | some (InfoContent.parsed data) =>
      if data.command ≠ currentCmd then .ok ⟨false, true, [], Path.mtime fs infofile⟩
      else
        match processDeps fs (Path.mtime fs infofile) data.deps ⟨false, false, []⟩ with
        | .error e => .error e
        | .ok st => .ok ⟨!st.stale, st.need_recompile, st.deps, Path.mtime fs infofile⟩

/-! ## Module build and the scheduler step (lines 275-286, 505-542) -/

/-- CompiledModule.build as it is actually invoked: every call site passes two
arguments (mod.build(target, cfg), lines 533, 782, 874, 920) while the method
is declared def build(self, target) on line 275, so the call raises TypeError
before any hash is computed. -/
def CompiledModule.buildCall : Except String String :=
  .error "TypeError: CompiledModule.build() takes 2 positional arguments but 3 were given"

/-- SourceFile.build_deps (lines 529-542): walk the recorded deps; for a
module dep, build the module and set need_recompile when the fresh hash
differs from the recorded sha256; for a header dep, HeaderDep.build only
locates and schedules the companion implementation file (it contributes link
objects and does not influence need_recompile). Returns the final
need_recompile flag. -/
def SourceFile.build_deps : List Dep → Bool → Except String Bool
  | [], needRe => .ok needRe
  | Dep.moduleDep _ sha :: rest, needRe =>
    match CompiledModule.buildCall with
    | .error e => .error e
    | .ok newHash =>
      SourceFile.build_deps rest (if newHash ≠ sha then true else needRe)
  | Dep.headerDep _ :: rest, needRe => SourceFile.build_deps rest needRe

/-- What one SourceFile.build call did. -/
inductive BuildStep
  | skipped_already_processed
  | returned_up_to_date
  | recompiled
  | deps_walked (need_recompile_after : Bool)
deriving DecidableEq, Repr

/-- SourceFile.build (lines 505-527), given the freshness-check result for
this file. If the file is already processed nothing happens. If up_to_date
the call returns. If need_recompile the rebuild step (makedirs, compile,
update, output_mtime stamp, header-companion builds) runs. Otherwise
build_deps walks the recorded deps; its final need_recompile flag is the
function's last effect — build returns immediately afterwards and no caller
reads the flag again (processed is already True, so the file is never built
twice). -/
def SourceFile.build (processed : Bool) (check : Except String FreshState) :
    Except String BuildStep :=
  if processed then .ok .skipped_already_processed
  else
    match check with
    | .error e => .error e
    | .ok st =>
      if st.up_to_date then .ok .returned_up_to_date
      else if st.need_recompile then .ok .recompiled
      else
        match SourceFile.build_deps st.deps st.need_recompile with
        | .error e => .error e
        | .ok needRe => .ok (.deps_walked needRe)

/-! ## GCC module-mapper dispatch (SourceFile.compile_gcc, lines 756-808) -/

/-- The apostrophe character, used by the mapper to quote logical names. -/
def squote : Char := Char.ofNat 39

/-- modname.replace(squote, empty): strip every apostrophe from a logical
module name, as lines 780 and 792 do. -/
def stripSingleQuotes (s : String) : String :=
  String.mk (s.toList.filter (fun c => decide (c ≠ squote)))

/-- Mutable state the mapper loop threads through one compile: the current
file's dependency set, the header-dep subset, and the response batch under
construction. Python sets are modelled as lists in insertion order. -/
structure MapperState where
  deps : List Dep
  header_deps : List Dep
  out : List String
deriving DecidableEq, Repr

/-- One parsed mapper request dispatched by the loop body of compile_gcc
(lines 756-808). HELLO is answered with the tool greeting. INCLUDE-TRANSLATE
records a HeaderDep when the path is not absolute and always answers BOOL
TRUE. MODULE-REPO answers with the object directory. MODULE-IMPORT reaches
mod.build(target, cfg) on line 782, which raises TypeError (the method takes
only self and target, line 275), so its continuation is unreachable.
MODULE-EXPORT answers with the deterministic interface-file name.
MODULE-COMPILED answers OK. Anything else is logged as a warning and produces
no response. Missing arguments raise IndexError at args[0]. -/
def handleCmd (objdir : String) (st : MapperState) (cmd : String)
    (args : List String) : Except String MapperState :=
  if cmd = "HELLO" then
    .ok { st with out := st.out ++ ["HELLO 1 buildtool.py"] }
  else if cmd = "INCLUDE-TRANSLATE" then
    match args with
    | [] => .error "IndexError: list index out of range"
    | file :: _ =>
      let st1 :=
        if !(strStartsWith file "/") then
          { st with deps := st.deps ++ [Dep.headerDep file],
                    header_deps := st.header_deps ++ [Dep.headerDep file] }
        else st
      .ok { st1 with out := st1.out ++ ["BOOL TRUE"] }
  else if cmd = "MODULE-REPO" then
    .ok { st with out := st.out ++ ["PATHNAME " ++ objdir] }
  else if cmd = "MODULE-IMPORT" then
    match args with
    | [] => .error "IndexError: list index out of range"
    | _ :: _ =>
      match CompiledModule.buildCall with
      | .error e => .error e
      | .ok _ => .error "unreachable"
  else if cmd = "MODULE-EXPORT" then
    match args with
    | [] => .error "IndexError: list index out of range"
    | modname :: _ =>
      .ok { st with out := st.out ++ ["PATHNAME " ++ mod2cm (stripSingleQuotes modname)] }
  else if cmd = "MODULE-COMPILED" then
    .ok { st with out := st.out ++ ["OK"] }
  else
    .ok st

/-! ## Source-file registry (SourceFile.get and type inference) -/

/-- The source types of the tool (SourceType StrEnum, lines 121-128). -/
inductive SourceType
  | CPP
  | C
  | ASM
  | SYSTEM_HEADER
  | USER_HEADER
  | GENERATED_HEADER
  | MODULE
deriving DecidableEq, Repr

/-- The extension inference of SourceFile.init (lines 441-447), used when no
explicit type was supplied and the registry missed: .cc and .cpp give CPP, .c
gives C (exact comparison here), anything else raises. -/
def SourceType.ofSuffixInit (path : String) : Except String SourceType :=
  if pathSuffix path = ".cc" ∨ pathSuffix path = ".cpp" then .ok SourceType.CPP
  else if pathSuffix path = ".c" then .ok SourceType.C
  else .error ("Unrecognized file type: " ++ path)

/-- The extension inference at the top of Target.compile (lines 299-311).
Line 304 reads path.suffix in a parenthesised bare string, so the test is
Python substring membership of the suffix in the two characters dot-c: the
empty suffix therefore also selects C. The other two arms use real tuples. -/
def Target.inferType (path : String) : Except String SourceType :=
  let s := pathSuffix path
  if s = ".cc" ∨ s = ".cpp" then .ok SourceType.CPP
  else if strContains ".c" s then .ok SourceType.C
  else if s = ".S" ∨ s = ".s" then .ok SourceType.ASM
  else .error ("unrecognized file type: " ++ path)

/-- The interned per-path record SourceFile.get hands out: the fields the
registry operations read and compare. -/
structure SourceRec where
  path : String
  type : SourceType
  modname : Option String
  mtime : Nat
deriving DecidableEq, Repr

/-- The process-wide registry SourceFile.files, an identity map keyed by
path. -/
def Registry := List (String × SourceRec)

/-- SourceFile.files.get(path). -/
def Registry.find (reg : Registry) (path : String) : Option SourceRec :=
  (reg.find? (fun e => decide (e.1 = path))).map (fun e => e.2)

/-- SourceFile constructor (lines 413-447) restricted to the fields the
registry reads: store the path, the supplied type (inferring it from the
extension when absent, which can raise), the supplied modname, and the source
mtime snapshot. -/
def SourceFile.init (fs : FileSystem) (path : String) (type? : Option SourceType)
    (modname? : Option String) : Except String SourceRec :=
  match type? with
  | some t => .ok ⟨path, t, modname?, Path.mtime fs path⟩
  | none =>
    match SourceType.ofSuffixInit path with
    | .error e => .error e
    | .ok t => .ok ⟨path, t, modname?, Path.mtime fs path⟩

/-- SourceFile.get (lines 400-411). On a registry hit, a supplied type that
is present and disagrees raises a type mismatch, a supplied modname that
disagrees with a stored one raises a modname mismatch (a modname supplied
when none is stored passes the truthiness guard and is dropped), and the
stored record is returned with the registry untouched. On a miss a new record
is constructed and interned. -/
def SourceFile.get (fs : FileSystem) (reg : Registry) (path : String)
    (type? : Option SourceType) (modname? : Option String) :
    Except String (Registry × SourceRec) :=
  match Registry.find reg path with
  | some file =>
    if type?.any (fun t => decide (t ≠ file.type)) then
      .error "type mismatch"
    else if modname?.any (fun m => file.modname.any (fun m2 => decide (m ≠ m2))) then
      .error "modname mismatch"
    else .ok (reg, file)
  | none =>
    match SourceFile.init fs path type? modname? with
    | .error e => .error e
    | .ok file => .ok ((path, file) :: reg, file)

/-! ## Target.link and process exit codes -/

/-- The re-link decision on line 341 of Target.link: the watermark of the
processed inputs is compared with greater-or-equal, the build script's own
mtime with strictly-greater. -/
def Target.link_runs (most_recent_output_mtime this_mtime ofile_mtime : Nat) : Bool :=
  decide (most_recent_output_mtime ≥ ofile_mtime) || decide (this_mtime > ofile_mtime)

/-- shell (lines 1219-1225): run a command; when the child exits nonzero the
tool calls exit(1). some n means the tool terminates with code n, none means
execution continues. -/
def shell_exit (returncode : Nat) : Option Nat :=
  if returncode ≠ 0 then some 1 else none

/-- The tail of SourceFile.compile_gcc (lines 825-827): the compiler's exit
code is forwarded verbatim through exit(exitcode). -/
def compile_gcc_exit (exitcode : Nat) : Option Nat :=
  if exitcode ≠ 0 then some exitcode else none

/-- SourceFile.compile_gcc_c (lines 829-833) runs the C/ASM compiler through
shell, so a failing compile terminates the tool with code 1. -/
def compile_gcc_c_exit (returncode : Nat) : Option Nat :=
  shell_exit returncode

/-- Target.link (line 344) runs the linker through shell, so a failing link
terminates the tool with code 1. -/
def link_step_exit (returncode : Nat) : Option Nat :=
  shell_exit returncode

/-! ## On-disk write traces (atomic_write, lines 1206-1210) -/

/-- A file system snapshot for observing writes: each path is either absent
or carries its current byte content. -/
def WriteFS := String → Option String

/-- Read a path. -/
def WriteFS.get (fs : WriteFS) (p : String) : Option String := fs p

/-- Overwrite a path. -/
def WriteFS.set (fs : WriteFS) (p : String) (v : String) : WriteFS :=
  fun q => if q = p then some v else fs q

/-- Remove a path. -/
def WriteFS.erase (fs : WriteFS) (p : String) : WriteFS :=
  fun q => if q = p then none else fs q

/-- The primitive file operations the persistence layer performs. openTrunc
is open(p, w): the file exists and is empty from that instant. writeAll is
the serialised document being written out. rename is os.rename, atomic. -/
inductive FsOp
  | openTrunc (p : String)
  | writeAll (p : String) (data : String)
  | rename (src : String) (dst : String)

/-- Apply one operation to the snapshot. -/
def FsOp.apply (fs : WriteFS) : FsOp → WriteFS
  | .openTrunc p => fs.set p ""
  | .writeAll p data => fs.set p data
  | .rename src dst =>
    match fs.get src with
    | none => fs
    | some v => (fs.erase src).set dst v

/-- Every snapshot a sequence of operations passes through, the initial one
included. -/
def runTrace (fs : WriteFS) (ops : List FsOp) : List WriteFS :=
  ops.scanl FsOp.apply fs

/-- atomic_write (lines 1206-1210): serialise to path + ".tmp", then rename
over the destination. -/
def atomic_write_ops (path data : String) : List FsOp :=
  [.openTrunc (path ++ ".tmp"), .writeAll (path ++ ".tmp") data,
   .rename (path ++ ".tmp") path]

/-- SourceFile.update persists the info file through atomic_write (line 560). -/
def info_write_ops (path data : String) : List FsOp :=
  atomic_write_ops path data

/-- build_compilation_database writes compile_commands.json through
atomic_write (line 1309). -/
def compile_commands_write_ops (path data : String) : List FsOp :=
  atomic_write_ops path data

/-- DirectoryConfig.process writes buildvars.json in place: open(json_file, w)
followed by json.dump (lines 988-989), with no temporary file and no rename. -/
def buildvars_write_ops (path data : String) : List FsOp :=
  [.openTrunc path, .writeAll path data]

/-! ## Concrete fixtures used by witnesses and counterexamples -/

/-- A file system where the source a.cc is older than its info file, and the
info file holds a truncated (malformed) JSON document. -/
def fsC2 : FileSystem :=
  ⟨[("a.cc", 5), ("obj/a.info", 10)], [("obj/a.info", InfoContent.malformedJson)]⟩

/-- A file system holding only the source m.cc: its info file does not
exist. -/
def fsC10 : FileSystem := ⟨[("m.cc", 7)], []⟩

/-- A registered record for a.cc with no module name. -/
def recW : SourceRec := ⟨"a.cc", SourceType.CPP, none, 5⟩

/-- A registry already holding a.cc. -/
def regW : Registry := [("a.cc", recW)]

/-- A file system holding a.cc, matching regW. -/
def fsW : FileSystem := ⟨[("a.cc", 5)], []⟩

/-! ## Theorems -/

/-- Claim C10 (confirmed): Path.mtime returns 0 for every nonexistent path;
consequently, for every source file whose info file does not exist, the
freshness check classifies it as rebuild already at the source-mtime >=
info-mtime comparison (any mtime is >= 0), before ever attempting to open or
parse the info file: the result is the same whatever the content map holds
for the info path. -/
theorem c10_missing_info_rebuild (fs : FileSystem) (p : String) (srcM : Nat)
    (cmd : List String) (habsent : fs.statOf p = none) :
    Path.mtime fs p = 0 ∧
    check_up_to_date fs srcM p cmd = Except.ok ⟨false, true, [], 0⟩ := by
  have hm : Path.mtime fs p = 0 := by simp [Path.mtime, habsent]
  refine ⟨hm, ?_⟩
  unfold check_up_to_date
  rw [hm]
  simp

/-- Witness for C10: a concrete file system where m.cc exists but its info
file does not. -/
theorem c10_missing_info_rebuild_witness :
    Path.mtime fsC10 "obj/m.info" = 0 ∧
    check_up_to_date fsC10 7 "obj/m.info" ["g++"] = Except.ok ⟨false, true, [], 0⟩ :=
  c10_missing_info_rebuild fsC10 "obj/m.info" 7 ["g++"] (by decide)

/-- Counterexample to claim C2 as stated: with an info file that exists, is
newer than the source, and holds malformed JSON, check_up_to_date does not
classify the file as rebuild; json.load's error propagates and the build
crashes. -/
theorem c2_malformed_info_counterexample :
    check_up_to_date fsC2 5 "obj/a.info" ["g++", "-c", "a.cc"]
      = Except.error "json.decoder.JSONDecodeError" ∧
    (check_up_to_date fsC2 5 "obj/a.info" ["g++", "-c", "a.cc"]).isOk = false :=
  ⟨rfl, rfl⟩

/-- Claim C2 (corrected): only a missing info file is treated as rebuild; for
every source file whose info file exists, is newer than the source, and
contains malformed JSON, check_up_to_date raises the JSON decode error
uncaught, so the build crashes instead of recompiling. -/
theorem c2_amended_malformed_info_raises (fs : FileSystem) (srcM : Nat)
    (infofile : String) (cmd : List String)
    (hstale : srcM < Path.mtime fs infofile)
    (hcontent : fs.contentOf infofile = some InfoContent.malformedJson) :
    check_up_to_date fs srcM infofile cmd
      = Except.error "json.decoder.JSONDecodeError" := by
  unfold check_up_to_date
  rw [if_neg (Nat.not_le.mpr hstale), hcontent]

/-- Witness for C2: the concrete malformed-info file system. -/
theorem c2_amended_malformed_info_raises_witness :
    check_up_to_date fsC2 5 "obj/a.info" ["g++", "-c", "a.cc"]
      = Except.error "json.decoder.JSONDecodeError" :=
  c2_amended_malformed_info_raises fsC2 5 "obj/a.info" ["g++", "-c", "a.cc"]
    (by decide) (by decide)

/-- Claim C1 (code bug): for every file whose freshness check returned the
deps-only state, the rebuild step is never run. SourceFile.build either
crashes with the TypeError raised by the two-argument call to
CompiledModule.build (whenever a module dep is recorded, which is exactly the
situation the claim quantifies over) or returns after the dep walk: the
need_recompile flag build_deps may set is never read again, so the claimed
upgrade-to-rebuild recompilation never happens. -/
theorem c1_deps_only_never_runs_rebuild (deps : List Dep) (om : Nat) :
    SourceFile.build false (.ok ⟨false, false, deps, om⟩) =
      (if deps.any Dep.isModule then
        Except.error
          "TypeError: CompiledModule.build() takes 2 positional arguments but 3 were given"
      else Except.ok (BuildStep.deps_walked false)) := by
  have h : ∀ l : List Dep, SourceFile.build_deps l false =
      (if l.any Dep.isModule then
        Except.error
          "TypeError: CompiledModule.build() takes 2 positional arguments but 3 were given"
      else Except.ok false) := by
    intro l
    induction l with
    | nil => simp [SourceFile.build_deps]
    | cons d rest ih =>
      cases d with
      | moduleDep n s =>
        simp [SourceFile.build_deps, CompiledModule.buildCall, Dep.isModule]
      | headerDep p =>
        simp [SourceFile.build_deps, Dep.isModule, ih]
  rw [show SourceFile.build false (Except.ok ⟨false, false, deps, om⟩) =
      (match SourceFile.build_deps deps false with
       | Except.error e => Except.error e
       | Except.ok needRe => Except.ok (BuildStep.deps_walked needRe)) from rfl]
  rw [h deps]
  cases hd : deps.any Dep.isModule with
  | true => simp [hd]
  | false => simp [hd]

/-- Counterexample to claim C3 as stated: during the in-place write of
buildvars.json there is an observable instant at which the file exists but is
not the complete serialised document (open with mode w truncates it first). -/
theorem c3_buildvars_partial_counterexample :
    ∃ s ∈ runTrace (fun _ => none) (buildvars_write_ops "obj/buildvars.json" "[1]"),
      WriteFS.get s "obj/buildvars.json" ≠ none ∧
      WriteFS.get s "obj/buildvars.json" ≠ some "[1]" := by
  decide

/-- Claim C3 (corrected): the info file and compile_commands.json are written
through atomic_write, so at every instant of those writes the destination is
either its prior content or the complete document; buildvars.json, however,
is written in place by DirectoryConfig.process, and its write passes through
an observable truncated state. -/
theorem c3_amended_write_atomicity (fs : WriteFS) (path data : String)
    (hdata : data ≠ "") :
    (∀ s ∈ runTrace fs (info_write_ops path data),
        WriteFS.get s path = WriteFS.get fs path ∨ WriteFS.get s path = some data) ∧
    (∀ s ∈ runTrace fs (compile_commands_write_ops path data),
        WriteFS.get s path = WriteFS.get fs path ∨ WriteFS.get s path = some data) ∧
    (∃ s ∈ runTrace fs (buildvars_write_ops path data),
        WriteFS.get s path ≠ none ∧ WriteFS.get s path ≠ some data) := by
  have htmp : path ≠ path ++ ".tmp" := by
    intro h
    have h2 : path.length = (path ++ ".tmp").length := congrArg String.length h
    rw [String.length_append] at h2
    have h3 : (".tmp" : String).length = 4 := rfl
    rw [h3] at h2
    omega
  have hatomic : ∀ s ∈ runTrace fs (atomic_write_ops path data),
      WriteFS.get s path = WriteFS.get fs path ∨ WriteFS.get s path = some data := by
    intro s hs
    simp only [runTrace, atomic_write_ops, List.scanl, List.mem_cons,
      List.not_mem_nil, or_false] at hs
    rcases hs with rfl | rfl | rfl | rfl
    · left; rfl
    · left
      simp [FsOp.apply, WriteFS.set, WriteFS.get, htmp]
    · left
      simp [FsOp.apply, WriteFS.set, WriteFS.get, htmp]
    · right
      simp [FsOp.apply, WriteFS.set, WriteFS.erase, WriteFS.get, htmp]
  refine ⟨hatomic, hatomic, ?_⟩
  refine ⟨FsOp.apply fs (FsOp.openTrunc path), ?_, ?_, ?_⟩
  · simp [runTrace, buildvars_write_ops, List.scanl]
  · simp [FsOp.apply, WriteFS.set, WriteFS.get]
  · simp [FsOp.apply, WriteFS.set, WriteFS.get]
    exact fun h => hdata h.symm

/-- Witness for C3: the amended statement at an empty initial file system,
the path obj/buildvars.json and the nonempty document. -/
theorem c3_amended_write_atomicity_witness :
    (∀ s ∈ runTrace (fun _ => none) (info_write_ops "obj/buildvars.json" "[1]"),
        WriteFS.get s "obj/buildvars.json" = WriteFS.get (fun _ => none) "obj/buildvars.json" ∨
        WriteFS.get s "obj/buildvars.json" = some "[1]") ∧
    (∀ s ∈ runTrace (fun _ => none) (compile_commands_write_ops "obj/buildvars.json" "[1]"),
        WriteFS.get s "obj/buildvars.json" = WriteFS.get (fun _ => none) "obj/buildvars.json" ∨
        WriteFS.get s "obj/buildvars.json" = some "[1]") ∧
    (∃ s ∈ runTrace (fun _ => none) (buildvars_write_ops "obj/buildvars.json" "[1]"),
        WriteFS.get s "obj/buildvars.json" ≠ none ∧
        WriteFS.get s "obj/buildvars.json" ≠ some "[1]") :=
  c3_amended_write_atomicity (fun _ => none) "obj/buildvars.json" "[1]" (by decide)

/-- Counterexample to claim C4 as stated: for the partitioned module name a:b
the code produces a-b.pcm, not the a:b.pcm the specification's
colon-kept-as-is rule demands. -/
theorem c4_colon_counterexample :
    mod2cm "a:b" = "a-b.pcm" ∧ ¬ mod2cm "a:b" = mod2cm_spec "a:b" := by
  decide

/-- Claim C4 (corrected): mod2cm maps a system name to the name without the
leading slash plus .pcm, a user name to its relative path plus .pcm (the
hypothesis states that normalising the user name is exactly dropping its
leading dot-slash, which holds for every well-formed user module name), and
any other name to the name with every colon replaced by a dash plus .pcm. -/
theorem c4_amended_mod2cm (name : String)
    (huser : strStartsWith name "./" = true →
      normpath (name ++ ".pcm") = strDrop name 2 ++ ".pcm") :
    mod2cm name = mod2cm_spec_amended name := by
  unfold mod2cm mod2cm_spec_amended
  cases h1 : strStartsWith name "/" with
  | true => simp [h1]
  | false =>
    cases h2 : strStartsWith name "./" with
    | true => simp [h1, h2, huser h2]
    | false => simp [h1, h2]

/-- Witness for C4: the user-header module name ./lib/io.h, for which the
normalisation hypothesis holds by computation. -/
theorem c4_amended_mod2cm_witness :
    mod2cm "./lib/io.h" = mod2cm_spec_amended "./lib/io.h" :=
  c4_amended_mod2cm "./lib/io.h" (by decide)

/-- Counterexample to claim C5 as stated: with watermark 0, THIS_MTIME 5 and
output mtime 5, max(watermark, THIS_MTIME) >= output-mtime holds, yet
Target.link does not invoke the link command. -/
theorem c5_watermark_counterexample :
    max 0 5 ≥ 5 ∧ Target.link_runs 0 5 5 = false := by
  decide

/-- Claim C5 (corrected): Target.link invokes the link command iff the
maximum output-mtime over processed inputs is >= the output file's mtime or
THIS_MTIME is strictly greater than the output file's mtime: the comparison
against the build script's own mtime is strict, not >=. -/
theorem c5_amended_link_condition (w t o : Nat) :
    Target.link_runs w t o = true ↔ (w ≥ o ∨ t > o) := by
  simp [Target.link_runs]

/-- Claim C6 (code bug): the extension inference of Target.compile maps .cc
and .cpp to CPP, .c to C and .s and .S to ASM, and fails on an unrecognized
nonempty suffix; but a path with the empty suffix is classified as C rather
than rejected, because line 304 tests substring membership of the suffix in
the string consisting of a dot and the letter c. -/
theorem c6_extension_inference :
    Target.inferType "main.cc" = Except.ok SourceType.CPP ∧
    Target.inferType "main.cpp" = Except.ok SourceType.CPP ∧
    Target.inferType "main.c" = Except.ok SourceType.C ∧
    Target.inferType "boot.s" = Except.ok SourceType.ASM ∧
    Target.inferType "boot.S" = Except.ok SourceType.ASM ∧
    Target.inferType "notes.txt" = Except.error "unrecognized file type: notes.txt" ∧
    Target.inferType "Makefile" = Except.ok SourceType.C :=
  ⟨rfl, rfl, rfl, rfl, rfl, rfl, rfl⟩

/-- Counterexample to claim C7 as stated: a C or ASM compile whose compiler
exits with code 2 terminates the tool with exit code 1, not 2, because
compile_gcc_c runs the compiler through shell. -/
theorem c7_exit_code_counterexample :
    compile_gcc_c_exit 2 = some 1 ∧ ¬ compile_gcc_c_exit 2 = some 2 := by
  decide

/-- Claim C7 (corrected): for a nonzero compiler exit code n, the GCC
module-mapper compile path forwards n verbatim, but the C/ASM compile path
and the link step both go through shell and terminate the tool with exit
code 1 regardless of n. -/
theorem c7_amended_exit_codes (n : Nat) (h : n ≠ 0) :
    compile_gcc_exit n = some n ∧ compile_gcc_c_exit n = some 1 ∧
      link_step_exit n = some 1 := by
  refine ⟨?_, ?_, ?_⟩ <;>
    simp [compile_gcc_exit, compile_gcc_c_exit, link_step_exit, shell_exit, h]

/-- Witness for C7 at the concrete child exit code 2. -/
theorem c7_amended_exit_codes_witness :
    compile_gcc_exit 2 = some 2 ∧ compile_gcc_c_exit 2 = some 1 ∧
      link_step_exit 2 = some 1 :=
  c7_amended_exit_codes 2 (by decide)

/-- Claim C8 (confirmed): every INCLUDE-TRANSLATE request is answered with
exactly the line BOOL TRUE, and a HeaderDep for the argument path is added to
the current file's dependency set (and header-dep set) iff the path does not
begin with a slash. -/
theorem c8_include_translate (objdir : String) (st : MapperState) (file : String) :
    handleCmd objdir st "INCLUDE-TRANSLATE" [file] =
      Except.ok
        ⟨st.deps ++ (if strStartsWith file "/" then [] else [Dep.headerDep file]),
         st.header_deps ++ (if strStartsWith file "/" then [] else [Dep.headerDep file]),
         st.out ++ ["BOOL TRUE"]⟩ := by
  cases h : strStartsWith file "/" with
  | true => simp [handleCmd, h]
  | false => simp [handleCmd, h]

/-- Claim C9 (confirmed): on a registry hit, SourceFile.get returns the
stored record with every field unchanged and leaves the registry untouched; a
supplied type or modname is only checked against the stored values, and in
particular a modname supplied for a record stored without one is silently
discarded (the truthiness guard skips the comparison). -/
theorem c9_registry_hit_frame (fs : FileSystem) (reg : Registry) (path : String)
    (t? : Option SourceType) (m? : Option String) (file : SourceRec)
    (hfind : Registry.find reg path = some file)
    (htype : ∀ t, t? = some t → t = file.type)
    (hmod : ∀ m m2, m? = some m → file.modname = some m2 → m = m2) :
    SourceFile.get fs reg path t? m? = Except.ok (reg, file) := by
  unfold SourceFile.get
  rw [hfind]
  have h1 : Option.any (fun t => !decide (t = file.type)) t? = false := by
    cases t? with
    | none => rfl
    | some t => simp [Option.any, htype t rfl]
  have h2 : Option.any (fun m => Option.any (fun m2 => !decide (m = m2)) file.modname) m?
      = false := by
    cases m? with
    | none => rfl
    | some m =>
      cases hm : file.modname with
      | none => simp [Option.any]
      | some m2 => simp [Option.any, hmod m m2 rfl hm]
  simp [h1, h2]

/-- Witness for C9: a.cc is registered with no modname; a later get supplying
a modname returns the stored record unchanged and does not store the
modname. -/
theorem c9_registry_hit_frame_witness :
    SourceFile.get fsW regW "a.cc" none (some "io.core") = Except.ok (regW, recW) :=
  c9_registry_hit_frame fsW regW "a.cc" none (some "io.core") recW rfl
    (fun _ h => Option.noConfusion h)
    (fun _ _ _ h2 => Option.noConfusion h2)
